import Mathlib

/-!
Shallow embedding of the real-time exercise evaluation engine
(`evaluateFrame` and its five analyzers, together with the two shared
geometric primitives) of the smart-rehab repository.

Modelling choices:
* JS numbers are modelled as real numbers; `Math.hypot`, `Math.asin`,
  `Math.acos` become `Real.sqrt`, `Real.arcsin`, `Real.arccos`.
* A MediaPipe landmarker result is a list of per-subject landmark arrays;
  a `null` result is `Option.none`.  The JS presence test
  `!pose?.landmarks?.length` is therefore "`none`, or the subject list is
  empty", captured by `firstSubject`.
* Fixed-index reads `lm[i]` into a detector-produced landmark array are
  modelled with `List.getD` (the detector contract fixes the array
  lengths at 33 pose / 21 hand points, so the default is never read on
  detector-conformant input).
* A result object that carries no `phase` field is modelled with
  `phase = Option.none`.
* `Number.prototype.toFixed` digit rendering is abstracted by `toFixed`;
  no property in this file depends on the rendered digits, only on the
  constant statuses, which are kept verbatim.
-/

/-- Two-dimensional keypoint in normalized frame coordinates. -/
structure Pt where
  x : ℝ
  y : ℝ

/-- One subject's landmark array; analyzers read fixed detector-defined indices. -/
abbrev Landmarks := List Pt

/-- Result object of the upstream landmark detector: per-subject landmark arrays. -/
structure LandmarkerResult where
  landmarks : List Landmarks

/-- Caller-owned per-session counter state threaded through `evaluateFrame`. -/
structure RepState where
  rep : ℕ
  phase : String

/-- Per-frame result; `phase = none` models a result object without a `phase` field. -/
structure FrameResult where
  rep : ℕ
  status : String
  quality : ℝ
  phase : Option String

/-- Fixed-index read into a landmark array (JS `lm[i]`). -/
def kp (lm : Landmarks) (i : ℕ) : Pt := lm.getD i ⟨0, 0⟩

/-- First subject's landmarks, or `none` when the detector result is absent or
empty — the JS presence test `!pose?.landmarks?.length`. -/
def firstSubject : Option LandmarkerResult → Option Landmarks
  | none => none
  | some r => r.landmarks.head?

/-- Abstraction of the JS `toFixed` digit rendering inside template strings;
no property below depends on the rendered digits. -/
def toFixed (_x : ℝ) (_digits : ℕ) : String := ""

/-- JS `String.prototype.includes`: substring test. -/
def jsIncludes (s sub : String) : Bool := decide (sub.data <:+: s.data)

/-- Shared geometric primitive `distance`: Euclidean distance
(`Math.hypot(a.x - b.x, a.y - b.y)`). -/
noncomputable def distance (a b : Pt) : ℝ :=
  Real.sqrt ((a.x - b.x) ^ 2 + (a.y - b.y) ^ 2)

/-- Shared geometric primitive `angleDeg`: angle in degrees at vertex `b`,
returning 180 when either ray has zero length. -/
noncomputable def angleDeg (a b c : Pt) : ℝ :=
  let ab : Pt := ⟨a.x - b.x, a.y - b.y⟩
  let cb : Pt := ⟨c.x - b.x, c.y - b.y⟩
  let dot := ab.x * cb.x + ab.y * cb.y
  let magAb := Real.sqrt (ab.x ^ 2 + ab.y ^ 2)
  let magCb := Real.sqrt (cb.x ^ 2 + cb.y ^ 2)
  if magAb = 0 ∨ magCb = 0 then 180
  else Real.arccos (min 1 (max (-1) (dot / (magAb * magCb)))) * (180 / Real.pi)

/-- Yaw angle (degrees) computed by the head-turn analyzer from nose and
shoulder keypoints: `Math.asin(clamp(delta / span)) * 180 / PI`. -/
noncomputable def headYaw (lm : Landmarks) : ℝ :=
  let nose := kp lm 0
  let lShoulder := kp lm 11
  let rShoulder := kp lm 12
  let span := |lShoulder.x - rShoulder.x|
  let center := (lShoulder.x + rShoulder.x) / 2
  let delta := nose.x - center
  Real.arcsin (max (-1) (min 1 (delta / span))) * (180 / Real.pi)

/-- Head-turn analyzer (`headLogic`). -/
noncomputable def headLogic (pose : Option LandmarkerResult) (state : RepState) :
    FrameResult :=
  match firstSubject pose with
  | none =>
      { rep := state.rep, status := "Show your shoulders and head", quality := 0,
        phase := none }
  | some lm =>
      let lShoulder := kp lm 11
      let rShoulder := kp lm 12
      let span := |lShoulder.x - rShoulder.x|
      if span = 0 then
        { rep := state.rep, status := "Hold steady", quality := 0, phase := none }
      else
        let yaw := headYaw lm
        let threshold : ℝ := 25
        let rp : ℕ × String :=
          if yaw > threshold ∧ state.phase ≠ "right" then (state.rep, "right")
          else if yaw < -threshold ∧ state.phase = "right" then (state.rep + 1, "left")
          else if yaw < -threshold ∧ state.phase ≠ "left" then (state.rep, "left")
          else if yaw > threshold ∧ state.phase = "left" then (state.rep + 1, "right")
          else (state.rep, state.phase)
        { rep := rp.1,
          status := "Yaw " ++ toFixed yaw 1 ++ " deg",
          quality := min 100 (max 0 (|yaw| / threshold * 70)),
          phase := some rp.2 }

/-- Normalized pinch gap of the finger-pinch analyzer:
`pinch / (span || 0.1)` — the JS `||` falls back to `0.1` exactly when
`span` is `0` (the only falsy value a nonnegative distance can take). -/
noncomputable def fingerNorm (lm : Landmarks) : ℝ :=
  let thumb := kp lm 4
  let index := kp lm 8
  let wrist := kp lm 0
  let span := distance thumb wrist
  let pinch := distance thumb index
  pinch / (if span = 0 then 0.1 else span)

/-- Finger-pinch analyzer (`fingerLogic`). -/
noncomputable def fingerLogic (hand : Option LandmarkerResult) (state : RepState) :
    FrameResult :=
  match firstSubject hand with
  | none =>
      { rep := state.rep, status := "Show your hand to the camera", quality := 0,
        phase := none }
  | some lm =>
      let norm := fingerNorm lm
      let phase1 := if norm < 0.25 then "pinched" else state.phase
      let rp : ℕ × String :=
        if norm > 0.45 ∧ phase1 = "pinched" then (state.rep + 1, "released")
        else (state.rep, phase1)
      { rep := rp.1,
        status := "Pinch gap " ++ toFixed (norm * 100) 0 ++ "%",
        quality := max 0 (min 100 ((0.45 - norm) * 200)),
        phase := some rp.2 }

/-- Number of extended fingers in the open/fist analyzer: fingertips
(indices 8, 12, 16, 20) strictly above their MCP joints (5, 9, 13, 17). -/
noncomputable def extendedCount (lm : Landmarks) : ℕ :=
  let tips := [8, 12, 16, 20].map (fun i => kp lm i)
  let mcp := [5, 9, 13, 17].map (fun i => kp lm i)
  ((tips.zip mcp).filter (fun tm => decide (tm.1.y < tm.2.y))).length

/-- Open/fist analyzer (`handLogic`). -/
noncomputable def handLogic (hand : Option LandmarkerResult) (state : RepState) :
    FrameResult :=
  match firstSubject hand with
  | none =>
      { rep := state.rep, status := "Show your hand to the camera", quality := 0,
        phase := none }
  | some lm =>
      let extended := extendedCount lm
      let phase1 := if extended ≥ 3 then "open" else state.phase
      let rp : ℕ × String :=
        if extended ≤ 1 ∧ phase1 = "open" then (state.rep + 1, "fist")
        else (state.rep, phase1)
      { rep := rp.1,
        status := if extended ≥ 3 then "Open" else "Fist",
        quality := min 100 ((extended : ℝ) * 25),
        phase := some rp.2 }

/-- Knee-raise analyzer (`legLogic`). -/
noncomputable def legLogic (pose : Option LandmarkerResult) (state : RepState) :
    FrameResult :=
  match firstSubject pose with
  | none =>
      { rep := state.rep, status := "Show full body to camera", quality := 0,
        phase := none }
  | some lm =>
      let knee := kp lm 25
      let hip := kp lm 23
      let ankle := kp lm 27
      let raised : Bool := decide (knee.y < hip.y - 0.05)
      let phase1 := if raised then "up" else state.phase
      let rp : ℕ × String :=
        if ¬ raised = true ∧ phase1 = "up" then (state.rep + 1, "down")
        else (state.rep, phase1)
      let ang := angleDeg hip knee ankle
      { rep := rp.1,
        status := if raised then "Knee up" else "Neutral",
        quality := min 100 (max 0 ((180 - ang) * 1.2)),
        phase := some rp.2 }

/-- Shoulder span used by the shoulder-raise analyzer
(`Math.abs(rShoulder.x - lShoulder.x) + 0.0001`). -/
noncomputable def shoulderSpan (lm : Landmarks) : ℝ :=
  |(kp lm 12).x - (kp lm 11).x| + 0.0001

/-- Left elevation-angle proxy of the shoulder-raise analyzer:
`(1 - |lEar.y - lShoulder.y| / span) * 180`. -/
noncomputable def shoulderLAngle (lm : Landmarks) : ℝ :=
  (1 - |(kp lm 7).y - (kp lm 11).y| / shoulderSpan lm) * 180

/-- Right elevation-angle proxy of the shoulder-raise analyzer. -/
noncomputable def shoulderRAngle (lm : Landmarks) : ℝ :=
  (1 - |(kp lm 8).y - (kp lm 12).y| / shoulderSpan lm) * 180

/-- Shoulder-raise analyzer (`shoulderLogic`).  The JS guard
`typeof state.phase === 'string' ? state.phase : 'L0R0'` is the identity
here because the model's phase is always a string. -/
noncomputable def shoulderLogic (pose : Option LandmarkerResult) (state : RepState) :
    FrameResult :=
  match firstSubject pose with
  | none =>
      { rep := state.rep, status := "Show upper body", quality := 0, phase := none }
  | some lm =>
      let lAngle := shoulderLAngle lm
      let rAngle := shoulderRAngle lm
      let liftAngle : ℝ := 60
      let relaxAngle : ℝ := 40
      let leftHold0 := jsIncludes state.phase ("L1")
      let rightHold0 := jsIncludes state.phase ("R1")
      let rl : ℕ × Bool :=
        if leftHold0 = false ∧ lAngle ≥ liftAngle then (state.rep + 1, true)
        else if leftHold0 = true ∧ lAngle < relaxAngle then (state.rep, false)
        else (state.rep, leftHold0)
      let rr : ℕ × Bool :=
        if rightHold0 = false ∧ rAngle ≥ liftAngle then (rl.1 + 1, true)
        else if rightHold0 = true ∧ rAngle < relaxAngle then (rl.1, false)
        else (rl.1, rightHold0)
      { rep := rr.1,
        status := "L:" ++ toFixed lAngle 0 ++ " deg R:" ++ toFixed rAngle 0 ++ " deg",
        quality := min 100 (max lAngle rAngle / 1.2),
        phase := some ("L" ++ (if rl.2 then "1" else "0") ++
                       "R" ++ (if rr.2 then "1" else "0")) }

/-- Dispatch function `evaluateFrame`.  The claims quantify over arbitrary
string identifiers, so the exercise id is modelled as `String`; the five
known identifiers route to their analyzers and everything else takes the
neutral fallback of the JS `default` branch. -/
noncomputable def evaluateFrame (exercise : String) (pose hand : Option LandmarkerResult)
    (state : RepState) : FrameResult :=
  if exercise = "head" then headLogic pose state
  else if exercise = "finger" then fingerLogic hand state
  else if exercise = "hand" then handLogic hand state
  else if exercise = "leg" then legLogic pose state
  else if exercise = "shoulder" then shoulderLogic pose state
  else { rep := state.rep, status := "Idle", quality := 0, phase := none }

/-- Follows the words of the C3 claim, for comparison with `fingerNorm`:
pinch gap normalized by the scale reference with the denominator floored
at `0.1` ("`d` = the wrist-to-thumb scale reference if it is at least 0.1,
and 0.1 otherwise"). -/
noncomputable def fingerNormFloored (lm : Landmarks) : ℝ :=
  let thumb := kp lm 4
  let index := kp lm 8
  let wrist := kp lm 0
  let span := distance thumb wrist
  let pinch := distance thumb index
  pinch / (if span ≥ 0.1 then span else 0.1)

/-- Filler keypoint for landmark indices a test frame does not use. -/
def pz : Pt := ⟨0, 0⟩

/-- Pose frame with both ears one unit above their shoulders and a collapsed
shoulder span: both shoulder-raise angle proxies are hugely negative. -/
def shoulderCexLm : Landmarks :=
  [pz, pz, pz, pz, pz, pz, pz, ⟨0.5, 1⟩, ⟨0.5, 1⟩, pz, pz, ⟨0.5, 0⟩, ⟨0.5, 0⟩]

/-- Pose frame whose nose is far right of the shoulder midpoint: the clamped
normalized offset is 1, so the yaw is 90 degrees, well past the 25-degree
threshold. -/
def headRightLm : Landmarks :=
  [⟨2, 0⟩, pz, pz, pz, pz, pz, pz, pz, pz, pz, pz, ⟨0, 0⟩, ⟨1, 0⟩]

/-- Pose frame whose two shoulder keypoints share the same x coordinate. -/
def equalXLm : Landmarks :=
  [⟨0.3, 0⟩, pz, pz, pz, pz, pz, pz, pz, pz, pz, pz, ⟨0.5, 0.2⟩, ⟨0.5, 0.3⟩]

/-- Hand frame with wrist-to-thumb span 0.05 and pinch gap 0.02: a small
positive scale reference, below the claimed 0.1 floor. -/
def smallSpanLm : Landmarks :=
  [⟨0, 0⟩, pz, pz, pz, ⟨0.05, 0⟩, pz, pz, pz, ⟨0.05, 0.02⟩]

/-- Hand frame with span 1 and pinch gap 0.1: normalized gap 0.1. -/
def pinchLm : Landmarks :=
  [⟨0, 0⟩, pz, pz, pz, ⟨1, 0⟩, pz, pz, pz, ⟨1, 0.1⟩]

/-- Hand frame with span 1 and pinch gap 0.5: normalized gap 0.5. -/
def releaseLm : Landmarks :=
  [⟨0, 0⟩, pz, pz, pz, ⟨1, 0⟩, pz, pz, pz, ⟨1, 0.5⟩]

/-- Pose frame whose ears sit at shoulder height on both sides: both
shoulder-raise angle proxies evaluate to 180 degrees. -/
def shoulderUpLm : Landmarks :=
  [pz, pz, pz, pz, pz, pz, pz, ⟨0, 0⟩, ⟨1, 0⟩, pz, pz, ⟨0, 0⟩, ⟨1, 0⟩]

lemma L0R0_no_L1 : jsIncludes ("L0R0") ("L1") = false := rfl

lemma L0R0_no_R1 : jsIncludes ("L0R0") ("R1") = false := rfl

lemma distance_smallSpan_span :
    distance (kp smallSpanLm 4) (kp smallSpanLm 0) = 0.05 := by
  have e4 : kp smallSpanLm 4 = ⟨0.05, 0⟩ := rfl
  have e0 : kp smallSpanLm 0 = ⟨0, 0⟩ := rfl
  rw [e4, e0]
  unfold distance
  rw [show ((0.05 : ℝ) - 0) ^ 2 + ((0 : ℝ) - 0) ^ 2 = 0.05 ^ 2 by norm_num,
    Real.sqrt_sq (by norm_num)]

lemma distance_smallSpan_pinch :
    distance (kp smallSpanLm 4) (kp smallSpanLm 8) = 0.02 := by
  have e4 : kp smallSpanLm 4 = ⟨0.05, 0⟩ := rfl
  have e8 : kp smallSpanLm 8 = ⟨0.05, 0.02⟩ := rfl
  rw [e4, e8]
  unfold distance
  rw [show ((0.05 : ℝ) - 0.05) ^ 2 + ((0 : ℝ) - 0.02) ^ 2 = 0.02 ^ 2 by norm_num,
    Real.sqrt_sq (by norm_num)]

lemma fingerNorm_smallSpanLm : fingerNorm smallSpanLm = 0.4 := by
  simp only [fingerNorm]
  rw [distance_smallSpan_span, distance_smallSpan_pinch]
  norm_num

lemma fingerNorm_pinchLm : fingerNorm pinchLm = 0.1 := by
  have h1 : distance (kp pinchLm 4) (kp pinchLm 0) = 1 := by
    have e4 : kp pinchLm 4 = ⟨1, 0⟩ := rfl
    have e0 : kp pinchLm 0 = ⟨0, 0⟩ := rfl
    rw [e4, e0]
    unfold distance
    rw [show ((1 : ℝ) - 0) ^ 2 + ((0 : ℝ) - 0) ^ 2 = 1 ^ 2 by norm_num,
      Real.sqrt_sq (by norm_num)]
  have h2 : distance (kp pinchLm 4) (kp pinchLm 8) = 0.1 := by
    have e4 : kp pinchLm 4 = ⟨1, 0⟩ := rfl
    have e8 : kp pinchLm 8 = ⟨1, 0.1⟩ := rfl
    rw [e4, e8]
    unfold distance
    rw [show ((1 : ℝ) - 1) ^ 2 + ((0 : ℝ) - 0.1) ^ 2 = 0.1 ^ 2 by norm_num,
      Real.sqrt_sq (by norm_num)]
  simp only [fingerNorm]
  rw [h1, h2]
  norm_num

lemma fingerNorm_releaseLm : fingerNorm releaseLm = 0.5 := by
  have h1 : distance (kp releaseLm 4) (kp releaseLm 0) = 1 := by
    have e4 : kp releaseLm 4 = ⟨1, 0⟩ := rfl
    have e0 : kp releaseLm 0 = ⟨0, 0⟩ := rfl
    rw [e4, e0]
    unfold distance
    rw [show ((1 : ℝ) - 0) ^ 2 + ((0 : ℝ) - 0) ^ 2 = 1 ^ 2 by norm_num,
      Real.sqrt_sq (by norm_num)]
  have h2 : distance (kp releaseLm 4) (kp releaseLm 8) = 0.5 := by
    have e4 : kp releaseLm 4 = ⟨1, 0⟩ := rfl
    have e8 : kp releaseLm 8 = ⟨1, 0.5⟩ := rfl
    rw [e4, e8]
    unfold distance
    rw [show ((1 : ℝ) - 1) ^ 2 + ((0 : ℝ) - 0.5) ^ 2 = 0.5 ^ 2 by norm_num,
      Real.sqrt_sq (by norm_num)]
  simp only [fingerNorm]
  rw [h1, h2]
  norm_num

lemma shoulderLAngle_upLm : shoulderLAngle shoulderUpLm = 180 := by
  have e7 : kp shoulderUpLm 7 = ⟨0, 0⟩ := rfl
  have e11 : kp shoulderUpLm 11 = ⟨0, 0⟩ := rfl
  have e12 : kp shoulderUpLm 12 = ⟨1, 0⟩ := rfl
  simp only [shoulderLAngle, shoulderSpan, e7, e11, e12]
  norm_num

lemma shoulderRAngle_upLm : shoulderRAngle shoulderUpLm = 180 := by
  have e8 : kp shoulderUpLm 8 = ⟨1, 0⟩ := rfl
  have e11 : kp shoulderUpLm 11 = ⟨0, 0⟩ := rfl
  have e12 : kp shoulderUpLm 12 = ⟨1, 0⟩ := rfl
  simp only [shoulderRAngle, shoulderSpan, e8, e11, e12]
  norm_num
/-- C2: the head-turn analyzer does NOT handle the left-to-right sweep
symmetrically: whenever the prior phase is "left", the returned rep equals
the prior rep — the branch that would increment on a left-to-right crossing
is shadowed by the earlier "enter right zone" branch and is unreachable. -/
theorem head_left_phase_never_increments (pose : Option LandmarkerResult)
    (state : RepState) (h : state.phase = "left") :
    (headLogic pose state).rep = state.rep := by
  unfold headLogic
  cases hf : firstSubject pose with
  | none => rfl
  | some lm =>
    simp only []
    split_ifs with h0 h1 h2 h3 h4
    · rfl
    · rfl
    · rw [h] at h2
      exact absurd h2.2 (by decide)
    · rfl
    · push_neg at h1
      rw [h] at h1 h4
      exact absurd (h1 h4.1) (by decide)
    · rfl

/-- Witness for C2 at a concrete failing frame: yaw is 90 degrees (past the
25-degree threshold), the prior phase is "left", yet the rep stays 5. -/
theorem head_left_phase_never_increments_w :
    (headLogic (some ⟨[headRightLm]⟩) ⟨5, "left"⟩).rep = 5 :=
  head_left_phase_never_increments (some ⟨[headRightLm]⟩) ⟨5, "left"⟩ rfl

/-- C5: any exercise identifier other than the five known ones yields the
neutral fallback (prior rep, status "Idle", quality 0, no phase field); the
dispatch is a total function over all string identifiers. -/
theorem unknown_exercise_neutral_fallback (exercise : String)
    (pose hand : Option LandmarkerResult) (state : RepState)
    (h1 : exercise ≠ "head") (h2 : exercise ≠ "finger") (h3 : exercise ≠ "hand")
    (h4 : exercise ≠ "leg") (h5 : exercise ≠ "shoulder") :
    evaluateFrame exercise pose hand state = ⟨state.rep, "Idle", 0, none⟩ := by
  simp [evaluateFrame, h1, h2, h3, h4, h5]

/-- Witness for C5 at the identifier "unknown". -/
theorem unknown_exercise_neutral_fallback_w :
    evaluateFrame ("unknown") none none ⟨7, "pinched"⟩ = ⟨7, "Idle", 0, none⟩ :=
  unknown_exercise_neutral_fallback ("unknown") none none ⟨7, "pinched"⟩
    (by decide) (by decide) (by decide) (by decide) (by decide)

/-- C6: for every exercise, an absent (null or empty) landmark set for that
exercise's modality returns quality 0, the rep unchanged, no phase field,
and the exercise-specific not-visible status. -/
theorem absent_landmarks_fallback (pose hand : Option LandmarkerResult)
    (state : RepState) :
    evaluateFrame ("head") none hand state =
      ⟨state.rep, "Show your shoulders and head", 0, none⟩ ∧
    evaluateFrame ("head") (some ⟨[]⟩) hand state =
      ⟨state.rep, "Show your shoulders and head", 0, none⟩ ∧
    evaluateFrame ("finger") pose none state =
      ⟨state.rep, "Show your hand to the camera", 0, none⟩ ∧
    evaluateFrame ("finger") pose (some ⟨[]⟩) state =
      ⟨state.rep, "Show your hand to the camera", 0, none⟩ ∧
    evaluateFrame ("hand") pose none state =
      ⟨state.rep, "Show your hand to the camera", 0, none⟩ ∧
    evaluateFrame ("hand") pose (some ⟨[]⟩) state =
      ⟨state.rep, "Show your hand to the camera", 0, none⟩ ∧
    evaluateFrame ("leg") none hand state =
      ⟨state.rep, "Show full body to camera", 0, none⟩ ∧
    evaluateFrame ("leg") (some ⟨[]⟩) hand state =
      ⟨state.rep, "Show full body to camera", 0, none⟩ ∧
    evaluateFrame ("shoulder") none hand state =
      ⟨state.rep, "Show upper body", 0, none⟩ ∧
    evaluateFrame ("shoulder") (some ⟨[]⟩) hand state =
      ⟨state.rep, "Show upper body", 0, none⟩ := by
  refine ⟨?_, ?_, ?_, ?_, ?_, ?_, ?_, ?_, ?_, ?_⟩ <;>
    simp [evaluateFrame, headLogic, fingerLogic, handLogic, legLogic,
      shoulderLogic, firstSubject]

/-- C9: when the two shoulder keypoints share an x coordinate, the head-turn
analyzer returns the "Hold steady" neutral result with the rep unchanged,
quality 0 and no phase field, avoiding the division by the zero span. -/
theorem head_zero_span_hold_steady (lm : Landmarks) (rest : List Landmarks)
    (state : RepState) (h : (kp lm 11).x = (kp lm 12).x) :
    headLogic (some ⟨lm :: rest⟩) state = ⟨state.rep, "Hold steady", 0, none⟩ := by
  simp [headLogic, firstSubject, h]

/-- Witness for C9 at a concrete pose frame with overlapping shoulder x. -/
theorem head_zero_span_hold_steady_w :
    headLogic (some ⟨[equalXLm]⟩) ⟨4, "right"⟩ = ⟨4, "Hold steady", 0, none⟩ :=
  head_zero_span_hold_steady equalXLm [] ⟨4, "right"⟩ rfl
lemma headLogic_rep_cases (pose : Option LandmarkerResult) (state : RepState) :
    (headLogic pose state).rep = state.rep ∨
      (headLogic pose state).rep = state.rep + 1 := by
  unfold headLogic
  cases hf : firstSubject pose with
  | none => left; rfl
  | some lm =>
    simp only []
    split_ifs <;> simp

lemma fingerLogic_rep_cases (hand : Option LandmarkerResult) (state : RepState) :
    (fingerLogic hand state).rep = state.rep ∨
      (fingerLogic hand state).rep = state.rep + 1 := by
  unfold fingerLogic
  cases hf : firstSubject hand with
  | none => left; rfl
  | some lm =>
    simp only []
    split_ifs <;> simp

lemma handLogic_rep_cases (hand : Option LandmarkerResult) (state : RepState) :
    (handLogic hand state).rep = state.rep ∨
      (handLogic hand state).rep = state.rep + 1 := by
  unfold handLogic
  cases hf : firstSubject hand with
  | none => left; rfl
  | some lm =>
    simp only []
    split_ifs <;> simp

lemma legLogic_rep_cases (pose : Option LandmarkerResult) (state : RepState) :
    (legLogic pose state).rep = state.rep ∨
      (legLogic pose state).rep = state.rep + 1 := by
  unfold legLogic
  cases hf : firstSubject pose with
  | none => left; rfl
  | some lm =>
    simp only []
    split_ifs <;> simp

lemma shoulderLogic_rep_cases (pose : Option LandmarkerResult) (state : RepState) :
    (shoulderLogic pose state).rep = state.rep ∨
      (shoulderLogic pose state).rep = state.rep + 1 ∨
      (shoulderLogic pose state).rep = state.rep + 2 := by
  unfold shoulderLogic
  cases hf : firstSubject pose with
  | none => left; rfl
  | some lm =>
    simp only []
    split_ifs <;> simp

/-- C4: for every analyzer the returned rep never decreases; the head,
finger, hand and knee analyzers raise it by at most 1 per call, and the
shoulder analyzer by exactly 0, 1 or 2 per call; dispatch through
`evaluateFrame` is monotone for every identifier. -/
theorem rep_monotone_and_bounded (exercise : String)
    (pose hand : Option LandmarkerResult) (state : RepState) :
    state.rep ≤ (evaluateFrame exercise pose hand state).rep ∧
    (headLogic pose state).rep ≤ state.rep + 1 ∧
    (fingerLogic hand state).rep ≤ state.rep + 1 ∧
    (handLogic hand state).rep ≤ state.rep + 1 ∧
    (legLogic pose state).rep ≤ state.rep + 1 ∧
    ((shoulderLogic pose state).rep = state.rep ∨
     (shoulderLogic pose state).rep = state.rep + 1 ∨
     (shoulderLogic pose state).rep = state.rep + 2) := by
  refine ⟨?_, ?_, ?_, ?_, ?_, shoulderLogic_rep_cases pose state⟩
  · by_cases e1 : exercise = "head"
    · subst e1
      unfold evaluateFrame
      rw [if_pos rfl]
      rcases headLogic_rep_cases pose state with h | h <;> omega
    · by_cases e2 : exercise = "finger"
      · subst e2
        unfold evaluateFrame
        rw [if_neg (by decide), if_pos rfl]
        rcases fingerLogic_rep_cases hand state with h | h <;> omega
      · by_cases e3 : exercise = "hand"
        · subst e3
          unfold evaluateFrame
          rw [if_neg (by decide), if_neg (by decide), if_pos rfl]
          rcases handLogic_rep_cases hand state with h | h <;> omega
        · by_cases e4 : exercise = "leg"
          · subst e4
            unfold evaluateFrame
            rw [if_neg (by decide), if_neg (by decide), if_neg (by decide),
              if_pos rfl]
            rcases legLogic_rep_cases pose state with h | h <;> omega
          · by_cases e5 : exercise = "shoulder"
            · subst e5
              unfold evaluateFrame
              rw [if_neg (by decide), if_neg (by decide), if_neg (by decide),
                if_neg (by decide), if_pos rfl]
              rcases shoulderLogic_rep_cases pose state with h | h | h <;> omega
            · unfold evaluateFrame
              rw [if_neg e1, if_neg e2, if_neg e3, if_neg e4, if_neg e5]
  · rcases headLogic_rep_cases pose state with h | h <;> omega
  · rcases fingerLogic_rep_cases hand state with h | h <;> omega
  · rcases handLogic_rep_cases hand state with h | h <;> omega
  · rcases legLogic_rep_cases pose state with h | h <;> omega

/-- Counterexample for C1: a pose frame with a collapsed shoulder span and
ears one unit from the shoulders makes both shoulder-raise angle proxies
hugely negative, and the returned quality `min 100 (max lAngle rAngle / 1.2)`
is negative — the shoulder analyzer's quality is not clamped below. -/
theorem shoulder_quality_below_zero_cex :
    (shoulderLogic (some ⟨[shoulderCexLm]⟩) ⟨0, "L0R0"⟩).quality < 0 := by
  have e7 : kp shoulderCexLm 7 = ⟨0.5, 1⟩ := rfl
  have e8 : kp shoulderCexLm 8 = ⟨0.5, 1⟩ := rfl
  have e11 : kp shoulderCexLm 11 = ⟨0.5, 0⟩ := rfl
  have e12 : kp shoulderCexLm 12 = ⟨0.5, 0⟩ := rfl
  simp only [shoulderLogic, firstSubject, List.head?]
  simp only [shoulderLAngle, shoulderRAngle, shoulderSpan, e7, e8, e11, e12]
  norm_num [min_lt_iff]

/-- C1 amended: the head, finger, hand and knee analyzers return a quality
clamped to [0, 100] on every input; the shoulder analyzer's quality is
clamped above at 100 but has no lower clamp. -/
theorem quality_bounds_amended (pose hand : Option LandmarkerResult)
    (state : RepState) :
    (0 ≤ (headLogic pose state).quality ∧ (headLogic pose state).quality ≤ 100) ∧
    (0 ≤ (fingerLogic hand state).quality ∧
      (fingerLogic hand state).quality ≤ 100) ∧
    (0 ≤ (handLogic hand state).quality ∧ (handLogic hand state).quality ≤ 100) ∧
    (0 ≤ (legLogic pose state).quality ∧ (legLogic pose state).quality ≤ 100) ∧
    (shoulderLogic pose state).quality ≤ 100 := by
  refine ⟨?_, ?_, ?_, ?_, ?_⟩
  · unfold headLogic
    cases hf : firstSubject pose with
    | none => norm_num
    | some lm =>
      simp only []
      split_ifs <;> norm_num
  · unfold fingerLogic
    cases hf : firstSubject hand with
    | none => norm_num
    | some lm =>
      simp only []
      exact ⟨le_max_left _ _, max_le (by norm_num) (min_le_left _ _)⟩
  · unfold handLogic
    cases hf : firstSubject hand with
    | none => norm_num
    | some lm =>
      simp only []
      exact ⟨le_min (by norm_num) (by positivity), min_le_left _ _⟩
  · unfold legLogic
    cases hf : firstSubject pose with
    | none => norm_num
    | some lm =>
      simp only []
      exact ⟨le_min (by norm_num) (le_max_left _ _), min_le_left _ _⟩
  · unfold shoulderLogic
    cases hf : firstSubject pose with
    | none => norm_num
    | some lm =>
      simp only []
      exact min_le_left _ _

/-- Counterexample for C3: a hand frame whose wrist-to-thumb scale reference
is 0.05 — a small positive value — is divided through as-is, giving a
normalized gap of 0.4 where the claimed 0.1-floored denominator would give
0.2. -/
theorem finger_norm_small_span_cex :
    fingerNorm smallSpanLm ≠ fingerNormFloored smallSpanLm ∧
    fingerNorm smallSpanLm = 0.4 ∧ fingerNormFloored smallSpanLm = 0.2 := by
  have hfloor : fingerNormFloored smallSpanLm = 0.2 := by
    simp only [fingerNormFloored]
    rw [distance_smallSpan_span, distance_smallSpan_pinch]
    norm_num
  refine ⟨?_, fingerNorm_smallSpanLm, hfloor⟩
  rw [fingerNorm_smallSpanLm, hfloor]
  norm_num

/-- C3 amended: the normalized pinch gap divides by the wrist-to-thumb scale
reference itself whenever that reference is nonzero (however small), and by
0.1 exactly when the reference is zero — the JS `span || 0.1` fallback. -/
theorem finger_norm_denominator_amended (lm : Landmarks) :
    (distance (kp lm 4) (kp lm 0) ≠ 0 →
      fingerNorm lm = distance (kp lm 4) (kp lm 8) / distance (kp lm 4) (kp lm 0)) ∧
    (distance (kp lm 4) (kp lm 0) = 0 →
      fingerNorm lm = distance (kp lm 4) (kp lm 8) / 0.1) := by
  constructor
  · intro h
    simp only [fingerNorm]
    rw [if_neg h]
  · intro h
    simp only [fingerNorm]
    rw [if_pos h]

/-- Witness for the amended C3 at the concrete small-span hand frame:
the 0.05 scale reference is nonzero, so the gap is normalized by 0.05. -/
theorem finger_norm_denominator_amended_w :
    distance (kp smallSpanLm 4) (kp smallSpanLm 0) ≠ 0 ∧
    fingerNorm smallSpanLm =
      distance (kp smallSpanLm 4) (kp smallSpanLm 8) /
        distance (kp smallSpanLm 4) (kp smallSpanLm 0) := by
  have h : distance (kp smallSpanLm 4) (kp smallSpanLm 0) ≠ 0 := by
    rw [distance_smallSpan_span]
    norm_num
  exact ⟨h, (finger_norm_denominator_amended smallSpanLm).1 h⟩

/-- C7: finger-pinch state machine and quality: a frame with normalized gap
below 0.25 sets phase "pinched" with the rep unchanged; a frame with gap
above 0.45 while the phase is "pinched" increments the rep and sets phase
"released"; the quality is `max 0 (min 100 ((0.45 - norm) * 200))`, which is
exactly 70 when the normalized gap is 0.1. -/
theorem finger_pinch_state_machine (lm : Landmarks) (rest : List Landmarks)
    (state : RepState) :
    (fingerNorm lm < 0.25 →
      (fingerLogic (some ⟨lm :: rest⟩) state).rep = state.rep ∧
      (fingerLogic (some ⟨lm :: rest⟩) state).phase = some "pinched") ∧
    (state.phase = "pinched" → fingerNorm lm > 0.45 →
      (fingerLogic (some ⟨lm :: rest⟩) state).rep = state.rep + 1 ∧
      (fingerLogic (some ⟨lm :: rest⟩) state).phase = some "released") ∧
    (fingerLogic (some ⟨lm :: rest⟩) state).quality =
      max 0 (min 100 ((0.45 - fingerNorm lm) * 200)) ∧
    (fingerNorm lm = 0.1 →
      (fingerLogic (some ⟨lm :: rest⟩) state).quality = 70) := by
  have hfs : firstSubject (some ⟨lm :: rest⟩) = some lm := rfl
  have hq : (fingerLogic (some ⟨lm :: rest⟩) state).quality =
      max 0 (min 100 ((0.45 - fingerNorm lm) * 200)) := rfl
  refine ⟨?_, ?_, hq, ?_⟩
  · intro h
    simp only [fingerLogic, hfs]
    rw [if_pos h, if_neg (fun hc => absurd hc.1 (by linarith))]
    exact ⟨rfl, rfl⟩
  · intro hp hn
    simp only [fingerLogic, hfs]
    rw [if_neg (by linarith : ¬ fingerNorm lm < 0.25)]
    rw [if_pos ⟨hn, hp⟩]
    exact ⟨rfl, rfl⟩
  · intro h
    rw [hq, h]
    norm_num

/-- Witness for C7: the normalized gap of the concrete pinch frame is 0.1,
so the phase becomes "pinched" and the quality is exactly 70; the release
frame has gap 0.5, so from phase "pinched" the rep increments to 4 and the
phase becomes "released". -/
theorem finger_pinch_state_machine_w :
    fingerNorm pinchLm < 0.25 ∧
    (fingerLogic (some ⟨[pinchLm]⟩) ⟨3, "idle"⟩).phase = some "pinched" ∧
    (fingerLogic (some ⟨[pinchLm]⟩) ⟨3, "idle"⟩).quality = 70 ∧
    fingerNorm releaseLm > 0.45 ∧
    (fingerLogic (some ⟨[releaseLm]⟩) ⟨3, "pinched"⟩).rep = 4 ∧
    (fingerLogic (some ⟨[releaseLm]⟩) ⟨3, "pinched"⟩).phase = some "released" := by
  have hp : fingerNorm pinchLm < 0.25 := by rw [fingerNorm_pinchLm]; norm_num
  have hr : fingerNorm releaseLm > 0.45 := by rw [fingerNorm_releaseLm]; norm_num
  refine ⟨hp, ?_, ?_, hr, ?_, ?_⟩
  · exact ((finger_pinch_state_machine pinchLm [] ⟨3, "idle"⟩).1 hp).2
  · exact (finger_pinch_state_machine pinchLm [] ⟨3, "idle"⟩).2.2.2 fingerNorm_pinchLm
  · exact ((finger_pinch_state_machine releaseLm [] ⟨3, "pinched"⟩).2.1 rfl hr).1
  · exact ((finger_pinch_state_machine releaseLm [] ⟨3, "pinched"⟩).2.1 rfl hr).2

/-- C8: from prior phase "L0R0", a single pose frame whose left and right
elevation angles both exceed the 60-degree lift threshold makes the
shoulder-raise analyzer return rep = prior rep + 2 and phase "L1R1". -/
theorem shoulder_double_increment (lm : Landmarks) (rest : List Landmarks)
    (state : RepState) (hp : state.phase = "L0R0")
    (hl : shoulderLAngle lm > 60) (hr : shoulderRAngle lm > 60) :
    (shoulderLogic (some ⟨lm :: rest⟩) state).rep = state.rep + 2 ∧
    (shoulderLogic (some ⟨lm :: rest⟩) state).phase = some "L1R1" := by
  have hfs : firstSubject (some ⟨lm :: rest⟩) = some lm := rfl
  simp only [shoulderLogic, hfs, hp, L0R0_no_L1, L0R0_no_R1]
  rw [if_pos (show True ∧ shoulderRAngle lm ≥ 60 from ⟨trivial, le_of_lt hr⟩)]
  rw [if_pos (show True ∧ shoulderLAngle lm ≥ 60 from ⟨trivial, le_of_lt hl⟩)]
  exact ⟨rfl, rfl⟩

/-- Witness for C8 at a concrete pose frame with both angle proxies at 180
degrees: from rep 0 and phase "L0R0" the analyzer returns rep 2 and "L1R1". -/
theorem shoulder_double_increment_w :
    shoulderLAngle shoulderUpLm > 60 ∧ shoulderRAngle shoulderUpLm > 60 ∧
    (shoulderLogic (some ⟨[shoulderUpLm]⟩) ⟨0, "L0R0"⟩).rep = 2 ∧
    (shoulderLogic (some ⟨[shoulderUpLm]⟩) ⟨0, "L0R0"⟩).phase = some "L1R1" := by
  have hl : shoulderLAngle shoulderUpLm > 60 := by
    rw [shoulderLAngle_upLm]; norm_num
  have hr : shoulderRAngle shoulderUpLm > 60 := by
    rw [shoulderRAngle_upLm]; norm_num
  have h := shoulder_double_increment shoulderUpLm [] ⟨0, "L0R0"⟩ rfl hl hr
  exact ⟨hl, hr, h.1, h.2⟩

/-- C10: with a present pose, the shoulder-raise analyzer always returns a
phase of the shape L(0 or 1)R(0 or 1), for every prior phase string; a prior
phase containing neither "L1" nor "R1" as a substring is treated exactly as
"L0R0". -/
theorem shoulder_phase_shape (lm : Landmarks) (rest : List Landmarks)
    (state : RepState) :
    ((shoulderLogic (some ⟨lm :: rest⟩) state).phase = some "L0R0" ∨
     (shoulderLogic (some ⟨lm :: rest⟩) state).phase = some "L1R0" ∨
     (shoulderLogic (some ⟨lm :: rest⟩) state).phase = some "L0R1" ∨
     (shoulderLogic (some ⟨lm :: rest⟩) state).phase = some "L1R1") ∧
    (jsIncludes state.phase ("L1") = false →
      jsIncludes state.phase ("R1") = false →
      shoulderLogic (some ⟨lm :: rest⟩) state =
        shoulderLogic (some ⟨lm :: rest⟩) ⟨state.rep, "L0R0"⟩) := by
  have hfs : firstSubject (some ⟨lm :: rest⟩) = some lm := rfl
  constructor
  · simp only [shoulderLogic, hfs]
    split_ifs <;>
      first
        | exact Or.inl rfl
        | exact Or.inr (Or.inl rfl)
        | exact Or.inr (Or.inr (Or.inl rfl))
        | exact Or.inr (Or.inr (Or.inr rfl))
  · intro h1 h2
    simp only [shoulderLogic, hfs, h1, h2, L0R0_no_L1, L0R0_no_R1]

/-- Witness for C10: the foreign phase "idle" (from another analyzer)
contains neither "L1" nor "R1" and is handled exactly like "L0R0". -/
theorem shoulder_phase_shape_w :
    jsIncludes ("idle") ("L1") = false ∧ jsIncludes ("idle") ("R1") = false ∧
    shoulderLogic (some ⟨[shoulderUpLm]⟩) ⟨0, "idle"⟩ =
      shoulderLogic (some ⟨[shoulderUpLm]⟩) ⟨0, "L0R0"⟩ :=
  ⟨rfl, rfl, (shoulder_phase_shape shoulderUpLm [] ⟨0, "idle"⟩).2 rfl rfl⟩
